import Mathlib

/-!
Verification development for the x402-trust protocol action handlers
(`src/skills/x402-trust/actions/`).  The five Python action handlers
(`check_provider`, `compare_providers`, `secure_payment`,
`confirm_delivery`, `raise_dispute`) and their shared utilities
(`utils.py`) are shallowly embedded below.

Modelling conventions:
* Python values flowing through the untyped parameter maps are modelled
  by the inductive `PyVal` (strings, numbers, booleans, lists, dicts,
  `None`).  Python numbers (int/float) are modelled by exact rationals;
  floating-point rounding is not modelled, arithmetic is exact.
* Every remote interaction (RPC reads, transaction submission) is a
  field of the `Env` record; an action is a pure function of `Env` and
  its parameters.  The network operations an action performs are
  recorded in a trace (`List NetOp`), so claims of the form "returns
  before any network call" become `trace = []`.  The gas/nonce/price
  lookups performed inside `send_transaction` are folded into the
  single `NetOp.submit` entry, and the per-provider `getTrustTier` /
  `needsEscrow` reads inside the `compare_providers` loop are folded
  into the pure `buildRecs` lookup of `Env`; no claim inspects that
  part of the trace.
* A Python `return value` is a normal result; an uncaught Python
  exception is `ActionRes.exn`; exceptions caught by the `try/except`
  wrappers are turned into error dicts exactly as the source does.
* Python library routines used by the source (`str.replace`,
  `str.strip`, `str.split`, `str.lower`, `bytes.fromhex`,
  `bytes.hex`, `float(...)`, `len`, `keccak`) are modelled by small
  executable functions; `keccak` itself is an uninterpreted field of
  `Env` since no claim depends on the actual digest.  The `float(...)`
  string parser model accepts plain signed decimal literals (no
  exponent forms); messages produced for display only (e.g. rendering
  a float into an error string) are simplified renderings.
-/

/-- Model of a Python value as found in the flat parameter/result maps. -/
inductive PyVal where
  | str (s : String)
  | num (q : ℚ)
  | bool (b : Bool)
  | list (l : List PyVal)
  | dict (d : List (String × PyVal))
  | none
deriving Repr

/-- A Python dict with string keys, in insertion order. -/
abbrev Dict := List (String × PyVal)

/-- The flat parameter map passed to an action entry point. -/
abbrev Params := List (String × PyVal)

/-- `params.get(k)`: the value stored under `k`, or Python `None`. -/
def getParam (params : Params) (k : String) : PyVal :=
  match params.find? (fun p => p.1 == k) with
  | some p => p.2
  | Option.none => PyVal.none

/-- Python truthiness of a value (`if not x`). -/
def truthy : PyVal → Bool
  | .str s => !s.data.isEmpty
  | .num q => !(decide (q = 0))
  | .bool b => b
  | .list l => !l.isEmpty
  | .dict d => !d.isEmpty
  | .none => false

/-- Display rendering of a rational, standing in for Python float/int
formatting.  Only used to build message strings no claim inspects. -/
def ratRepr (q : ℚ) : String :=
  if q.den = 1 then toString q.num ++ ".0" else toString q.num ++ "/" ++ toString q.den

/-- Rendering of a value inside an f-string (`str(x)`).  List/dict
element rendering is elided (no claim exercises it). -/
def pyStr : PyVal → String
  | .str s => s
  | .num q => ratRepr q
  | .bool true => "True"
  | .bool false => "False"
  | .list _ => "[...]"
  | .dict _ => "\x7b...\x7d"
  | .none => "None"

/-- Python whitespace test for `str.strip`. -/
def isPyWS (c : Char) : Bool :=
  c == ' ' || c == '\t' || c == '\n' || c == '\r'

/-- Characters of a string with surrounding whitespace removed
(`str.strip`). -/
def trimWSChars (l : List Char) : List Char :=
  ((l.dropWhile isPyWS).reverse.dropWhile isPyWS).reverse

/-- `str.strip()`. -/
def pyStrip (s : String) : String := ⟨trimWSChars s.data⟩

/-- `s.replace("0x", "")`: delete every occurrence of `0x`, scanning
left to right without rescanning, as Python `str.replace` does. -/
def strip0x : List Char → List Char
  | [] => []
  | '0' :: 'x' :: rest => strip0x rest
  | c :: rest => c :: strip0x rest

/-- `s.split(",")`. -/
def splitComma : List Char → List (List Char)
  | [] => [[]]
  | ',' :: rest => [] :: splitComma rest
  | c :: rest =>
    match splitComma rest with
    | [] => [[c]]
    | g :: gs => (c :: g) :: gs

/-- `s.lower()`. -/
def lowerStr (s : String) : String := ⟨s.data.map Char.toLower⟩

/-- `s[:n]`. -/
def strTake (s : String) (n : ℕ) : String := ⟨s.data.take n⟩

/-- Value of a decimal digit character, if it is one. -/
def digitsValAux : ℕ → List Char → Option ℕ
  | acc, [] => some acc
  | acc, c :: cs =>
    if c.isDigit then digitsValAux (acc * 10 + (c.toNat - 48)) cs else Option.none

/-- Split a character list at the first `.`. -/
def splitDot : List Char → List Char × Option (List Char)
  | [] => ([], Option.none)
  | '.' :: rest => ([], some rest)
  | c :: rest =>
    let p := splitDot rest
    (c :: p.1, p.2)

/-- Executable multiplication on `ℚ`.  The Batteries arithmetic on
`Rat` is `@[irreducible]`, so the embedding uses `Rat.divInt`-based
operations that the kernel can evaluate; `qMul_eq` below identifies
them with the ring operations. -/
def qMul (a b : ℚ) : ℚ := Rat.divInt (a.num * b.num) ((a.den : ℤ) * (b.den : ℤ))

/-- Executable division on `ℚ` (`qDiv_eq` identifies it with `/`). -/
def qDiv (a b : ℚ) : ℚ := Rat.divInt (a.num * (b.den : ℤ)) ((a.den : ℤ) * b.num)

/-- Executable addition on `ℚ` (`qAdd_eq` identifies it with `+`). -/
def qAdd (a b : ℚ) : ℚ :=
  Rat.divInt (a.num * (b.den : ℤ) + b.num * (a.den : ℤ)) ((a.den : ℤ) * (b.den : ℤ))

/-- Parse an unsigned decimal literal (`123`, `1.`, `.5`, `1.25`). -/
def parseUnsigned (l : List Char) : Option ℚ :=
  match splitDot l with
  | (ip, Option.none) =>
    if ip.isEmpty then Option.none
    else (digitsValAux 0 ip).map (fun n => (n : ℚ))
  | (ip, some fp) =>
    if ip.isEmpty && fp.isEmpty then Option.none
    else
      match digitsValAux 0 ip, digitsValAux 0 fp with
      | some i, some f => some (qAdd (i : ℚ) (qDiv (f : ℚ) ((10 ^ fp.length : ℕ) : ℚ)))
      | _, _ => Option.none

/-- Model of CPython `float(string)` on plain signed decimal literals
(whitespace stripped, optional sign, digits with at most one dot). -/
def parseFloatChars (l : List Char) : Option ℚ :=
  match trimWSChars l with
  | '+' :: rest => parseUnsigned rest
  | '-' :: rest => (parseUnsigned rest).map (fun q => -q)
  | rest => parseUnsigned rest

/-- Model of Python `float(x)`. -/
def pyFloat : PyVal → Except String ℚ
  | .num q => .ok q
  | .bool b => .ok (if b then 1 else 0)
  | .str s =>
    match parseFloatChars s.data with
    | some q => .ok q
    | Option.none => .error ("could not convert string to float: '" ++ s ++ "'")
  | .list _ => .error "float() argument must be a string or a real number, not 'list'"
  | .dict _ => .error "float() argument must be a string or a real number, not 'dict'"
  | .none => .error "float() argument must be a string or a real number, not 'NoneType'"

/-- Model of Python `len(x)`. -/
def pyLen : PyVal → Except String ℕ
  | .str s => .ok s.data.length
  | .list l => .ok l.length
  | .dict d => .ok d.length
  | .num _ => .error "object of type 'float' has no len()"
  | .bool _ => .error "object of type 'bool' has no len()"
  | .none => .error "object of type 'NoneType' has no len()"

/-- Model of Python iteration `for x in v` (strings yield characters,
dicts yield their keys). -/
def pyIter : PyVal → Except String (List PyVal)
  | .str s => .ok (s.data.map (fun c => PyVal.str ⟨[c]⟩))
  | .list l => .ok l
  | .dict d => .ok (d.map (fun kv => PyVal.str kv.1))
  | .num _ => .error "'float' object is not iterable"
  | .bool _ => .error "'bool' object is not iterable"
  | .none => .error "'NoneType' object is not iterable"

/-- Python `int(q)` for a float: truncation toward zero. -/
def pyInt (q : ℚ) : ℤ :=
  if 0 ≤ q then ⌊q⌋ else -⌊-q⌋

/-- Python 3 `round(q)`: round half to even (banker's rounding).
The fractional part `r = q - ⌊q⌋` equals `(q.num - ⌊q⌋ * q.den) / q.den`
with a positive denominator, so `r < 1/2` is decided by comparing
`2 * (q.num - ⌊q⌋ * q.den)` with `q.den` (kernel-evaluable). -/
def pyRound (q : ℚ) : ℤ :=
  let f := ⌊q⌋
  let rnum2 := 2 * (q.num - f * (q.den : ℤ))
  if rnum2 < (q.den : ℤ) then f
  else if (q.den : ℤ) < rnum2 then f + 1
  else if f % 2 = 0 then f else f + 1

/-- Hex digit character for a value below 16. -/
def hexDigitChar (n : ℕ) : Char :=
  if n < 10 then Char.ofNat (48 + n) else Char.ofNat (87 + n)

/-- Two lowercase hex characters for one byte. -/
def byteHex (b : ℕ) : List Char :=
  [hexDigitChar (b / 16 % 16), hexDigitChar (b % 16)]

/-- `HexBytes.hex()`: `0x`-prefixed lowercase rendering of bytes. -/
def bytesHex (bs : List ℕ) : String :=
  ⟨'0' :: 'x' :: bs.foldr (fun b acc => byteHex b ++ acc) []⟩

/-- Value of a hex digit character, if it is one. -/
def hexVal? (c : Char) : Option ℕ :=
  if '0' ≤ c && c ≤ '9' then some (c.toNat - 48)
  else if 'a' ≤ c && c ≤ 'f' then some (c.toNat - 87)
  else if 'A' ≤ c && c ≤ 'F' then some (c.toNat - 55)
  else Option.none

/-- Pairs of hex digits to bytes. -/
def bytesFromHexChars : List Char → Option (List ℕ)
  | [] => some []
  | [_] => Option.none
  | c1 :: c2 :: rest =>
    match hexVal? c1, hexVal? c2, bytesFromHexChars rest with
    | some h, some l, some bs => some ((h * 16 + l) :: bs)
    | _, _, _ => Option.none

/-- Model of Python `bytes.fromhex`. -/
def pyFromHex (s : String) : Except String (List ℕ) :=
  match bytesFromHexChars s.data with
  | some bs => .ok bs
  | Option.none => .error "non-hexadecimal number found in fromhex() arg"

/-- Big-endian value of a byte slice, as `int(bytes.hex(), 16)`. -/
def natOfBytes (bs : List ℕ) : ℕ :=
  bs.foldl (fun a b => a * 256 + b) 0

/-- Python slice `l[a:b]`. -/
def listSlice (l : List ℕ) (a b : ℕ) : List ℕ :=
  (l.drop a).take (b - a)

/-- `scores[i]` with Python IndexError semantics. -/
def idx? (l : List ℕ) (i : ℕ) : Except String ℕ :=
  match l.get? i with
  | some x => .ok x
  | Option.none => .error "list index out of range"

/-- A delivery proof tuple as built by `confirm_delivery` (utils ABI:
requestHash, responseHash, responseSize, schemaHash, signature). -/
structure DeliveryProof where
  requestHash : List ℕ
  responseHash : List ℕ
  responseSize : ℕ
  schemaHash : List ℕ
  signature : List ℕ
deriving Repr

/-- A signed transaction request handed to `send_transaction`. -/
inductive TxReq where
  | approve (spender : String) (amount : ℕ) (sender : String) (chainId : ℕ)
  | createPayment (provider : String) (amount : ℕ) (requestHash : List ℕ)
      (sender : String) (chainId : ℕ)
  | confirmDelivery (paymentId : List ℕ) (proof : DeliveryProof)
      (sender : String) (chainId : ℕ)
  | raiseDispute (paymentId : List ℕ) (evidence : List ℕ)
      (sender : String) (chainId : ℕ)
deriving Repr

/-- One emitted log entry of a transaction receipt. -/
structure LogEntry where
  topics : List (List ℕ)
  data : List ℕ
deriving Repr

/-- A transaction receipt. -/
structure Receipt where
  logs : List LogEntry
  transactionHash : List ℕ
deriving Repr

/-- The `getPayment` struct (buyer, provider, amount, requestHash,
createdAt, timeout, deliveryBlock, status, useEscrow). -/
structure PaymentRec where
  buyer : String
  provider : String
  amount : ℕ
  requestHash : List ℕ
  createdAt : ℕ
  timeout : ℕ
  deliveryBlock : ℕ
  status : ℕ
  useEscrow : Bool
deriving Repr

/-- The remote world an action runs against: address validation and
checksumming, keccak, configuration, and every contract read or
transaction submission, all as pure deterministic functions. -/
structure Env where
  isAddress : String → Bool
  toChecksum : String → String
  keccak : String → List ℕ
  chainId : Except String ℕ
  accountAddress : String
  privateKey : Option String
  escrowVault : String
  getProviderInfo : String → Except String (ℕ × ℕ × ℕ × Bool)
  getTrustTier : String → Except String String
  needsEscrow : String → Except String Bool
  compareProviders : List String → Except String (List ℕ × List ℕ)
  getPayment : List ℕ → Except String PaymentRec
  balanceOf : String → Except String ℕ
  allowance : String → String → Except String ℕ
  sendTx : TxReq → Except String Receipt

/-- One network interaction performed by an action. -/
inductive NetOp where
  | read (name : String)
  | submit (tx : TxReq)
deriving Repr

/-- `w3.is_address(v)`: false on every non-string value. -/
def pyIsAddress (env : Env) : PyVal → Bool
  | .str s => env.isAddress s
  | _ => false

/-- Underlying string of a value known to be a valid address. -/
def pyAddrStr : PyVal → String
  | .str s => s
  | _ => ""

/-- `Web3.keccak(text=v)`: raises unless `v` is a string. -/
def keccakText (env : Env) : PyVal → Except String (List ℕ)
  | .str s => .ok (env.keccak s)
  | _ => .error "Text must be a string"

/-- `v.replace("0x", "")`: raises unless `v` is a string. -/
def pyReplace0x : PyVal → Except String String
  | .str s => .ok ⟨strip0x s.data⟩
  | _ => .error "object has no attribute 'replace'"

/-- `get_account` succeeds iff the signing key is set and non-empty
(`if not config private_key: raise ValueError`). -/
def keyConfigured (env : Env) : Bool :=
  match env.privateKey with
  | some s => !s.data.isEmpty
  | Option.none => false

/-- The computation inside an action's `try` block: a value or a raised
exception, together with the network operations performed. -/
def Step (α : Type) : Type :=
  List NetOp → Except String α × List NetOp

instance : Monad Step where
  pure a := fun tr => (Except.ok a, tr)
  bind x f := fun tr =>
    match x tr with
    | (Except.ok a, tr') => f a tr'
    | (Except.error e, tr') => (Except.error e, tr')

/-- A read call against the RPC endpoint. -/
def netRead {α : Type} (name : String) (r : Except String α) : Step α :=
  fun tr => (r, tr ++ [NetOp.read name])

/-- `send_transaction`: sign, broadcast, wait for the receipt. -/
def netSubmit (env : Env) (t : TxReq) : Step Receipt :=
  fun tr => (env.sendTx t, tr ++ [NetOp.submit t])

/-- A pure computation inside the `try` block that may raise. -/
def liftE {α : Type} (e : Except String α) : Step α :=
  fun tr => (e, tr)

/-- Run a `try` body, turning a raised exception into the handler's
error dict, as the actions' `except Exception` clauses do. -/
def runTry (body : Step Dict) (onErr : String → Dict) : Dict × List NetOp :=
  match body [] with
  | (Except.ok d, tr) => (d, tr)
  | (Except.error e, tr) => (onErr e, tr)

/-- Result of invoking an action: a returned dict, or an uncaught
Python exception propagating out of the handler. -/
inductive ActionRes where
  | dict (d : Dict)
  | exn (msg : String)
deriving Repr

/-- An action invocation's result together with its network trace. -/
structure Outcome where
  result : ActionRes
  trace : List NetOp
deriving Repr

/-- `utils.get_recommendation`. -/
def get_recommendation (score : ℕ) : String :=
  if score ≥ 850 then "Highly recommended - Elite provider with excellent track record"
  else if score ≥ 700 then "Recommended - Excellent provider, low risk"
  else if score ≥ 500 then "Acceptable - Good provider, use with escrow protection"
  else if score ≥ 400 then "Caution - Fair provider, escrow strongly recommended"
  else "Not recommended - Poor track record, high risk"

/-- The `status_names` mapping with default `"Unknown"` used by
`confirm_delivery` and `raise_dispute`. -/
def statusName (s : ℕ) : String :=
  if s = 0 then "None"
  else if s = 1 then "Pending"
  else if s = 2 then "Completed"
  else if s = 3 then "Refunded"
  else if s = 4 then "Disputed"
  else if s = 5 then "Stuck"
  else "Unknown"

/-- `utils.DISPUTE_TRACKS` (a dict lookup that raises on other keys). -/
def DISPUTE_TRACKS : ℕ → Option (String × ℕ)
  | 0 => some ("FastTrack", 60)
  | 1 => some ("Standard", 120)
  | 2 => some ("Complex", 192)
  | _ => Option.none

/-- The local track classification of `raise_dispute` (lines 62-66):
Standard by default, FastTrack below 100 tokens, Complex from 1000
tokens, thresholds in smallest units. -/
def disputeTrackIdx (amount : ℕ) : ℕ :=
  if amount < 100 * 1000000 then 0
  else if amount ≥ 1000 * 1000000 then 2
  else 1

/-- `check_provider.check_provider`. -/
def check_provider (env : Env) (provider_address : PyVal) : Outcome :=
  if !(pyIsAddress env provider_address) then
    ⟨.dict [("error", .str ("Invalid address: " ++ pyStr provider_address))], []⟩
  else
    let provider := env.toChecksum (pyAddrStr provider_address)
    let body : Step Dict := do
      let info ← netRead "getProviderInfo" (env.getProviderInfo provider)
      let (score, _tier, timeout, is_active) := info
      if !is_active then
        return [("error", .str "Provider not registered or inactive"),
                ("is_active", .bool false)]
      let tier_name ← netRead "getTrustTier" (env.getTrustTier provider)
      let needs_escrow ← netRead "needsEscrow" (env.needsEscrow provider)
      return [("provider", .str provider),
              ("score", .num score),
              ("tier", .str tier_name),
              ("escrow_required", .bool needs_escrow),
              ("recommended_timeout", .num ((timeout / 60 : ℕ))),
              ("recommendation", .str (get_recommendation score)),
              ("is_active", .bool true)]
    let r := runTry body (fun e => [("error", .str e)])
    ⟨.dict r.1, r.2⟩

/-- `check_provider.run`. -/
def check_provider_run (env : Env) (params : Params) : Outcome :=
  let provider_address := getParam params "provider_address"
  if !(truthy provider_address) then
    ⟨.dict [("error", .str "provider_address is required")], []⟩
  else check_provider env provider_address

/-- One entry of the `comparison` array built by `compare_providers`. -/
structure Rec where
  address : String
  score : ℕ
  tier : String
  timeoutMinutes : ℕ
  escrowRequired : Bool
  recommendation : String
deriving Repr

/-- The dict form of a comparison entry. -/
def recToDict (r : Rec) : PyVal :=
  .dict [("address", .str r.address),
         ("score", .num r.score),
         ("tier", .str r.tier),
         ("timeout_minutes", .num r.timeoutMinutes),
         ("escrow_required", .bool r.escrowRequired),
         ("recommendation", .str r.recommendation)]

/-- Score of a comparison entry in its dict form (`x["score"]`, the
sort key). -/
def dictScore (v : PyVal) : ℚ :=
  match v with
  | .dict d =>
    match d.find? (fun p => p.1 == "score") with
    | some (_, PyVal.num q) => q
    | _ => 0
  | _ => 0

/-- Sort order of `comparison.sort(key=lambda x: x["score"],
reverse=True)`: higher scores first. -/
def recGE (a b : Rec) : Prop := b.score ≤ a.score

instance : DecidableRel recGE := fun a b => Nat.decLe b.score a.score

instance : IsTotal Rec recGE := ⟨fun a b => Nat.le_total b.score a.score⟩

instance : IsTrans Rec recGE := ⟨fun _ _ _ hab hbc => Nat.le_trans hbc hab⟩

/-- The address-validation loop of `compare_providers` (lines 34-38):
checksummed addresses, or the early-returned error dict of the first
invalid entry. -/
def validateAddrs (env : Env) : List PyVal → Except Dict (List String)
  | [] => .ok []
  | v :: rest =>
    if pyIsAddress env v then
      (validateAddrs env rest).map (fun tl => env.toChecksum (pyAddrStr v) :: tl)
    else
      .error [("error", .str ("Invalid address: " ++ pyStr v))]

/-- The per-provider loop body of `compare_providers` (lines 48-62):
`scores[i]`, `timeouts[i]`, tier and escrow reads, and the built
record.  The RPC reads come from `env`; an out-of-range index raises
as in Python. -/
def buildRecs (env : Env) :
    List String → List ℕ → List ℕ → ℕ → Except String (List Rec)
  | [], _, _, _ => .ok []
  | addr :: rest, scores, timeouts, i => do
    let score ← idx? scores i
    let timeout ← idx? timeouts i
    let tier ← env.getTrustTier addr
    let needs_escrow ← env.needsEscrow addr
    let rs ← buildRecs env rest scores timeouts (i + 1)
    .ok (⟨addr, score, tier, timeout / 60, needs_escrow,
          get_recommendation score⟩ :: rs)

/-- The best-provider fold of `compare_providers` (lines 45-66):
`best_score` starts at 0 and is replaced only on a strictly larger
score. -/
def foldBest (recs : List Rec) : ℕ × Option String :=
  recs.foldl
    (fun p r => if p.1 < r.score then (r.score, some r.address) else p)
    (0, Option.none)

/-- The reasoning string of `compare_providers` (lines 72-79). -/
def mkReasoning (best_score : ℕ) (best_provider : String) : String :=
  if best_score ≥ 850 then
    "Provider " ++ strTake best_provider 10 ++ "... is Elite tier with score "
      ++ toString best_score ++ ". Highly recommended."
  else if best_score ≥ 700 then
    "Provider " ++ strTake best_provider 10 ++ "... has Excellent rating ("
      ++ toString best_score ++ "). Good choice for most payments."
  else if best_score ≥ 500 then
    "Provider " ++ strTake best_provider 10 ++ "... has Good rating ("
      ++ toString best_score ++ "). Use with escrow protection."
  else
    "All providers have low scores. Best available is "
      ++ strTake best_provider 10 ++ "... with score "
      ++ toString best_score ++ ". Proceed with caution."

/-- `compare_providers.compare_providers`.  `len` on a non-sized value
raises before the `try` block, exactly as in Python. -/
def compare_providers (env : Env) (provider_addresses : PyVal) : Outcome :=
  if !(truthy provider_addresses) then
    ⟨.dict [("error", .str "At least 2 provider addresses required for comparison")], []⟩
  else
    match pyLen provider_addresses with
    | .error m => ⟨.exn m, []⟩
    | .ok n =>
      if n < 2 then
        ⟨.dict [("error", .str "At least 2 provider addresses required for comparison")], []⟩
      else if n > 10 then
        ⟨.dict [("error", .str "Maximum 10 providers can be compared at once")], []⟩
      else
        let body : Step Dict := do
          let items ← liftE (pyIter provider_addresses)
          match validateAddrs env items with
          | .error d => return d
          | .ok validated => do
            let st ← netRead "compareProviders" (env.compareProviders validated)
            let (scores, timeouts) := st
            let recs ← liftE (buildRecs env validated scores timeouts 0)
            let best := foldBest recs
            match best.2 with
            | Option.none => liftE (.error "'NoneType' object is not subscriptable")
            | some best_provider => do
              let sortedRecs := List.insertionSort recGE recs
              let reasoning := mkReasoning best.1 best_provider
              return [("comparison", .list (sortedRecs.map recToDict)),
                      ("recommended", .str best_provider),
                      ("reasoning", .str reasoning),
                      ("total_providers", .num sortedRecs.length)]
        let r := runTry body (fun e => [("error", .str e)])
        ⟨.dict r.1, r.2⟩

/-- `compare_providers.run`: a comma-separated string form is split
and stripped before dispatch. -/
def compare_providers_run (env : Env) (params : Params) : Outcome :=
  let provider_addresses := getParam params "provider_addresses"
  if !(truthy provider_addresses) then
    ⟨.dict [("error", .str "provider_addresses is required")], []⟩
  else
    match provider_addresses with
    | .str s =>
      compare_providers env
        (.list ((splitComma s.data).map (fun cs => PyVal.str (pyStrip ⟨cs⟩))))
    | v => compare_providers env v

/-- The `PaymentCreated` log scan of `secure_payment` (lines 84-93):
the last matching log wins; a matching log with a single topic raises
IndexError; `data` shorter than 64 bytes leaves the running values,
64 to 95 bytes resets the timeout to the 900-second default. -/
def parsePaymentLogs (sig : List ℕ) :
    List LogEntry → Option String × Bool × ℕ → Except String (Option String × Bool × ℕ)
  | [], st => .ok st
  | l :: ls, (pid, eu, tmo) =>
    match l.topics with
    | [] => parsePaymentLogs sig ls (pid, eu, tmo)
    | t0 :: rest =>
      if bytesHex t0 = bytesHex sig then
        match rest with
        | [] => .error "list index out of range"
        | t1 :: _ =>
          let st' :=
            if l.data.length ≥ 64 then
              (some (bytesHex t1),
               decide (natOfBytes (listSlice l.data 32 64) = 1),
               if l.data.length ≥ 96 then natOfBytes (listSlice l.data 64 96) else 900)
            else (some (bytesHex t1), eu, tmo)
          parsePaymentLogs sig ls st'
      else parsePaymentLogs sig ls (pid, eu, tmo)

/-- The ASCII signature hashed to recognise `PaymentCreated` logs. -/
def paymentCreatedSig : String :=
  "PaymentCreated(bytes32,address,address,uint256,bool,uint256)"

/-- `secure_payment.secure_payment`.  `get_account`, the validations,
the unit conversion and `hash_string` all run before the `try` block;
a missing signing key or a non-string description therefore raises. -/
def secure_payment (env : Env) (provider_address : PyVal) (amount_usdc : ℚ)
    (request_description : PyVal) : Outcome :=
  if !(keyConfigured env) then ⟨.exn "EVM_PRIVATE_KEY not configured", []⟩
  else if !(pyIsAddress env provider_address) then
    ⟨.dict [("error", .str ("Invalid provider address: " ++ pyStr provider_address))], []⟩
  else if amount_usdc < 1 then
    ⟨.dict [("error", .str "Minimum payment is 1 USDC")], []⟩
  else
    let provider := env.toChecksum (pyAddrStr provider_address)
    let amount_wei := (pyInt (qMul amount_usdc 1000000)).toNat
    match keccakText env request_description with
    | .error m => ⟨.exn m, []⟩
    | .ok request_hash =>
      let body : Step Dict := do
        let balance ← netRead "balanceOf" (env.balanceOf env.accountAddress)
        if balance < amount_wei then
          return [("error", .str ("Insufficient USDC balance. Have: "
            ++ ratRepr (qDiv (balance : ℚ) 1000000) ++ ", Need: " ++ ratRepr amount_usdc))]
        let escrow_address := env.toChecksum env.escrowVault
        let allowance ← netRead "allowance" (env.allowance env.accountAddress escrow_address)
        if allowance < amount_wei then
          let cid ← netRead "chain_id" env.chainId
          let _ ← netSubmit env (.approve escrow_address amount_wei env.accountAddress cid)
        let cid ← netRead "chain_id" env.chainId
        let receipt ← netSubmit env
          (.createPayment provider amount_wei request_hash env.accountAddress cid)
        let st ← liftE (parsePaymentLogs (env.keccak paymentCreatedSig)
          receipt.logs (Option.none, true, 900))
        let (pidO, escrow_used, timeout) := st
        let payment_id :=
          match pidO with
          | some s => if s = "" then bytesHex receipt.transactionHash else s
          | Option.none => bytesHex receipt.transactionHash
        return [("payment_id", .str payment_id),
                ("escrow_used", .bool escrow_used),
                ("timeout_minutes", .num ((timeout / 60 : ℕ))),
                ("transaction_hash", .str (bytesHex receipt.transactionHash)),
                ("amount_usdc", .num amount_usdc),
                ("provider", .str provider)]
      let r := runTry body (fun e => [("error", .str e)])
      ⟨.dict r.1, r.2⟩

/-- `secure_payment.run`: `float(amount_usdc)` raises out of the
handler on unparseable values. -/
def secure_payment_run (env : Env) (params : Params) : Outcome :=
  let provider_address := getParam params "provider_address"
  let amount_usdc := getParam params "amount_usdc"
  let request_description := getParam params "request_description"
  if !(truthy provider_address) then
    ⟨.dict [("error", .str "provider_address is required")], []⟩
  else if !(truthy amount_usdc) then
    ⟨.dict [("error", .str "amount_usdc is required")], []⟩
  else if !(truthy request_description) then
    ⟨.dict [("error", .str "request_description is required")], []⟩
  else
    match pyFloat amount_usdc with
    | .error m => ⟨.exn m, []⟩
    | .ok q => secure_payment env provider_address q request_description

/-- `confirm_delivery.confirm_delivery`. -/
def confirm_delivery (env : Env) (payment_id response_data : PyVal) : Outcome :=
  if !(keyConfigured env) then ⟨.exn "EVM_PRIVATE_KEY not configured", []⟩
  else
    let body : Step Dict := do
      let pidStr ← liftE (pyReplace0x payment_id)
      let pidBytes ← liftE (pyFromHex pidStr)
      let p ← netRead "getPayment" (env.getPayment pidBytes)
      if p.status ≠ 1 then
        return [("error", .str ("Payment not pending. Status: " ++ statusName p.status))]
      if lowerStr p.buyer ≠ lowerStr env.accountAddress then
        return [("error", .str "Only buyer can confirm delivery")]
      let response_hash ← liftE (keccakText env response_data)
      let rlen ← liftE (pyLen response_data)
      let proof : DeliveryProof :=
        ⟨p.requestHash, response_hash, rlen, List.replicate 32 0, List.replicate 65 0⟩
      let cid ← netRead "chain_id" env.chainId
      let receipt ← netSubmit env (.confirmDelivery pidBytes proof env.accountAddress cid)
      let info ← netRead "getProviderInfo" (env.getProviderInfo p.provider)
      return [("success", .bool true),
              ("transaction_hash", .str (bytesHex receipt.transactionHash)),
              ("provider", .str p.provider),
              ("provider_new_score", .num info.1),
              ("amount_released", .num (qDiv (p.amount : ℚ) 1000000))]
    let r := runTry body (fun e => [("error", .str e), ("success", .bool false)])
    ⟨.dict r.1, r.2⟩

/-- `confirm_delivery.run`. -/
def confirm_delivery_run (env : Env) (params : Params) : Outcome :=
  let payment_id := getParam params "payment_id"
  let response_data := getParam params "response_data"
  if !(truthy payment_id) then
    ⟨.dict [("error", .str "payment_id is required")], []⟩
  else if !(truthy response_data) then
    ⟨.dict [("error", .str "response_data is required")], []⟩
  else confirm_delivery env payment_id response_data

/-- The `DisputeRaised` log scan of `raise_dispute` (lines 71-76): the
last matching log wins; with exactly two topics the data bytes are
used, with a third topic that topic is used. -/
def parseDisputeLogs (sig : List ℕ) : List LogEntry → Option String → Option String
  | [], acc => acc
  | l :: ls, acc =>
    let acc' :=
      match l.topics with
      | t0 :: _t1 :: rest =>
        if bytesHex t0 = bytesHex sig then
          some (match rest with
                | t2 :: _ => bytesHex t2
                | [] => bytesHex l.data)
        else acc
      | _ => acc
    parseDisputeLogs sig ls acc'

/-- The ASCII signature hashed to recognise `DisputeRaised` logs. -/
def disputeRaisedSig : String := "DisputeRaised(bytes32,bytes32)"

/-- `raise_dispute.raise_dispute`. -/
def raise_dispute (env : Env) (payment_id reason : PyVal) : Outcome :=
  if !(keyConfigured env) then ⟨.exn "EVM_PRIVATE_KEY not configured", []⟩
  else
    let body : Step Dict := do
      let pidStr ← liftE (pyReplace0x payment_id)
      let pidBytes ← liftE (pyFromHex pidStr)
      let p ← netRead "getPayment" (env.getPayment pidBytes)
      if p.status ≠ 1 then
        return [("error", .str ("Cannot dispute. Payment status: " ++ statusName p.status))]
      if lowerStr p.buyer ≠ lowerStr env.accountAddress then
        return [("error", .str "Only buyer can raise dispute")]
      let evidence_hash ← liftE (keccakText env reason)
      let cid ← netRead "chain_id" env.chainId
      let receipt ← netSubmit env (.raiseDispute pidBytes evidence_hash env.accountAddress cid)
      let track := disputeTrackIdx p.amount
      let track_info ← liftE
        (match DISPUTE_TRACKS track with
         | some t => Except.ok t
         | Option.none => Except.error ("KeyError: " ++ toString track))
      let didO := parseDisputeLogs (env.keccak disputeRaisedSig) receipt.logs Option.none
      let dispute_id :=
        match didO with
        | some s => if s = "" then bytesHex receipt.transactionHash else s
        | Option.none => bytesHex receipt.transactionHash
      return [("dispute_id", .str dispute_id),
              ("payment_id", payment_id),
              ("track", .str track_info.1),
              ("resolution_hours", .num track_info.2),
              ("transaction_hash", .str (bytesHex receipt.transactionHash)),
              ("reason", reason),
              ("amount_disputed", .num (qDiv (p.amount : ℚ) 1000000))]
    let r := runTry body (fun e => [("error", .str e)])
    ⟨.dict r.1, r.2⟩

/-- `raise_dispute.run`. -/
def raise_dispute_run (env : Env) (params : Params) : Outcome :=
  let payment_id := getParam params "payment_id"
  let reason := getParam params "reason"
  if !(truthy payment_id) then
    ⟨.dict [("error", .str "payment_id is required")], []⟩
  else if !(truthy reason) then
    ⟨.dict [("error", .str "reason is required")], []⟩
  else raise_dispute env payment_id reason

/-- A small concrete environment used to instantiate theorems with
hypotheses on closed inputs.  Addresses of the shape `0x` followed by
lowercase letters count as valid; keccak is an arbitrary injective-
enough stand-in (claims never constrain the digest function). -/
def envBase : Env where
  isAddress := fun s => s.data.length ≥ 3 && s.data.take 2 = ['0', 'x']
  toChecksum := fun s => s
  keccak := fun s => [s.data.length % 256]
  chainId := .ok 5042002
  accountAddress := "0xme"
  privateKey := some "key"
  escrowVault := "0xvault"
  getProviderInfo := fun _ => .ok (800, 5, 600, true)
  getTrustTier := fun _ => .ok "Excellent"
  needsEscrow := fun _ => .ok false
  compareProviders := fun _ => .ok ([5, 3], [60, 120])
  getPayment := fun _ => .ok ⟨"0xme", "0xprov", 50000000, [1], 0, 900, 0, 1, true⟩
  balanceOf := fun _ => .ok 1000000000000
  allowance := fun _ _ => .ok 1000000000000
  sendTx := fun _ => .ok ⟨[], [171, 205]⟩

/-- `envBase` with no signing key configured. -/
def envNoKey : Env where
  isAddress := fun s => s.data.length ≥ 3 && s.data.take 2 = ['0', 'x']
  toChecksum := fun s => s
  keccak := fun s => [s.data.length % 256]
  chainId := .ok 5042002
  accountAddress := "0xme"
  privateKey := Option.none
  escrowVault := "0xvault"
  getProviderInfo := fun _ => .ok (800, 5, 600, true)
  getTrustTier := fun _ => .ok "Excellent"
  needsEscrow := fun _ => .ok false
  compareProviders := fun _ => .ok ([5, 3], [60, 120])
  getPayment := fun _ => .ok ⟨"0xme", "0xprov", 50000000, [1], 0, 900, 0, 1, true⟩
  balanceOf := fun _ => .ok 1000000000000
  allowance := fun _ _ => .ok 1000000000000
  sendTx := fun _ => .ok ⟨[], [171, 205]⟩

/-- `envBase` where every compared provider has score zero. -/
def envZeroScores : Env where
  isAddress := fun s => s.data.length ≥ 3 && s.data.take 2 = ['0', 'x']
  toChecksum := fun s => s
  keccak := fun s => [s.data.length % 256]
  chainId := .ok 5042002
  accountAddress := "0xme"
  privateKey := some "key"
  escrowVault := "0xvault"
  getProviderInfo := fun _ => .ok (0, 0, 600, true)
  getTrustTier := fun _ => .ok "None"
  needsEscrow := fun _ => .ok true
  compareProviders := fun _ => .ok ([0, 0], [60, 60])
  getPayment := fun _ => .ok ⟨"0xme", "0xprov", 50000000, [1], 0, 900, 0, 1, true⟩
  balanceOf := fun _ => .ok 1000000000000
  allowance := fun _ _ => .ok 1000000000000
  sendTx := fun _ => .ok ⟨[], [171, 205]⟩

/-- `envBase` where `createPayment` receipts carry one log entry whose
topic signature is not the `PaymentCreated` hash. -/
def envOtherLog : Env where
  isAddress := fun s => s.data.length ≥ 3 && s.data.take 2 = ['0', 'x']
  toChecksum := fun s => s
  keccak := fun s => [s.data.length % 256]
  chainId := .ok 5042002
  accountAddress := "0xme"
  privateKey := some "key"
  escrowVault := "0xvault"
  getProviderInfo := fun _ => .ok (800, 5, 600, true)
  getTrustTier := fun _ => .ok "Excellent"
  needsEscrow := fun _ => .ok false
  compareProviders := fun _ => .ok ([5, 3], [60, 120])
  getPayment := fun _ => .ok ⟨"0xme", "0xprov", 50000000, [1], 0, 900, 0, 1, true⟩
  balanceOf := fun _ => .ok 1000000000000
  allowance := fun _ _ => .ok 1000000000000
  sendTx := fun _ => .ok ⟨[⟨[[7], [9]], [1, 2, 3]⟩], [171, 205]⟩

/-- `envBase` where the fetched payment belongs to another buyer. -/
def envWrongBuyer : Env where
  isAddress := fun s => s.data.length ≥ 3 && s.data.take 2 = ['0', 'x']
  toChecksum := fun s => s
  keccak := fun s => [s.data.length % 256]
  chainId := .ok 5042002
  accountAddress := "0xme"
  privateKey := some "key"
  escrowVault := "0xvault"
  getProviderInfo := fun _ => .ok (800, 5, 600, true)
  getTrustTier := fun _ => .ok "Excellent"
  needsEscrow := fun _ => .ok false
  compareProviders := fun _ => .ok ([5, 3], [60, 120])
  getPayment := fun _ => .ok ⟨"0xother", "0xprov", 50000000, [1], 0, 900, 0, 1, true⟩
  balanceOf := fun _ => .ok 1000000000000
  allowance := fun _ _ => .ok 1000000000000
  sendTx := fun _ => .ok ⟨[], [171, 205]⟩

/-- The value stored under key `k` of a returned result dict, if the
action returned a dict containing it. -/
def resultGet (o : Outcome) (k : String) : Option PyVal :=
  match o.result with
  | .dict d => (d.find? (fun p => p.1 == k)).map (fun p => p.2)
  | .exn _ => Option.none

/-- The maximum score among the built comparison records. -/
def maxScore (recs : List Rec) : ℕ :=
  recs.foldl (fun m r => max m r.score) 0

/-- Specification-side definition, following the claim's words: the
address of the provider with the maximum score among the inputs, first
occurrence on ties.  Compared against the `foldBest` computation the
source performs. -/
def specFirstMaxAddr (recs : List Rec) : Option String :=
  (recs.find? (fun r => r.score == maxScore recs)).map (fun r => r.address)

/-! ### Helper lemmas -/

theorem stepBind_apply {α β : Type} (x : Step α) (f : α → Step β) (tr : List NetOp) :
    (x >>= f) tr = match x tr with
      | (Except.ok a, tr') => f a tr'
      | (Except.error e, tr') => (Except.error e, tr') := rfl

theorem stepPure_apply {α : Type} (a : α) (tr : List NetOp) :
    (pure a : Step α) tr = (Except.ok a, tr) := rfl

theorem qDiv_eq (a b : ℚ) : qDiv a b = a / b := (Rat.div_def' a b).symm

theorem qMul_eq (a b : ℚ) : qMul a b = a * b := by
  rw [qMul, ← Rat.divInt_mul_divInt', Rat.num_divInt_den, Rat.num_divInt_den]

theorem qAdd_eq (a b : ℚ) : qAdd a b = a + b := by
  rw [qAdd, ← Rat.divInt_add_divInt a.num b.num
        (by exact_mod_cast a.den_nz) (by exact_mod_cast b.den_nz),
      Rat.num_divInt_den, Rat.num_divInt_den]

/-- The dispute-track dict lookup never raises: every index produced
by `disputeTrackIdx` is a key of `DISPUTE_TRACKS`. -/
theorem DISPUTE_TRACKS_total (a : ℕ) :
    DISPUTE_TRACKS (disputeTrackIdx a) =
      some (if a < 100000000 then ("FastTrack", 60)
            else if 1000000000 ≤ a then ("Complex", 192)
            else ("Standard", 120)) := by
  unfold disputeTrackIdx
  split_ifs with h1 h2 <;> simp_all [DISPUTE_TRACKS]

/-- C5: for every payment amount `a` in smallest units, the locally
derived dispute track satisfies: `a < 100_000_000` yields FastTrack
with 60 resolution hours, `a ≥ 1_000_000_000` yields Complex with 192
hours, all other amounts yield Standard with 120 hours; the boundary
`a = 100_000_000` yields Standard and `a = 1_000_000_000` yields
Complex. -/
theorem C5_dispute_track (a : ℕ) :
    (a < 100000000 → DISPUTE_TRACKS (disputeTrackIdx a) = some ("FastTrack", 60)) ∧
    (1000000000 ≤ a → DISPUTE_TRACKS (disputeTrackIdx a) = some ("Complex", 192)) ∧
    (100000000 ≤ a → a < 1000000000 →
      DISPUTE_TRACKS (disputeTrackIdx a) = some ("Standard", 120)) ∧
    DISPUTE_TRACKS (disputeTrackIdx 100000000) = some ("Standard", 120) ∧
    DISPUTE_TRACKS (disputeTrackIdx 1000000000) = some ("Complex", 192) := by
  refine ⟨?_, ?_, ?_, by decide, by decide⟩ <;>
    · intro h
      try intro h'
      rw [DISPUTE_TRACKS_total]
      split_ifs <;> first | rfl | omega

theorem C5_witness :
    DISPUTE_TRACKS (disputeTrackIdx 50000000) = some ("FastTrack", 60) ∧
    DISPUTE_TRACKS (disputeTrackIdx 1500000000) = some ("Complex", 192) ∧
    DISPUTE_TRACKS (disputeTrackIdx 500000000) = some ("Standard", 120) :=
  ⟨(C5_dispute_track 50000000).1 (by decide),
   (C5_dispute_track 1500000000).2.1 (by decide),
   (C5_dispute_track 500000000).2.2.1 (by decide) (by decide)⟩

/-- C6: the recommendation string is a pure function of the score with
breakpoints 850/700/500/400, and the five example scores produce texts
containing "Elite", "Excellent", "Good", "Fair" and "Poor"
respectively. -/
theorem C6_recommendation (s : ℕ) :
    (850 ≤ s → get_recommendation s =
      "Highly recommended - Elite provider with excellent track record") ∧
    (700 ≤ s → s < 850 → get_recommendation s =
      "Recommended - Excellent provider, low risk") ∧
    (500 ≤ s → s < 700 → get_recommendation s =
      "Acceptable - Good provider, use with escrow protection") ∧
    (400 ≤ s → s < 500 → get_recommendation s =
      "Caution - Fair provider, escrow strongly recommended") ∧
    (s < 400 → get_recommendation s =
      "Not recommended - Poor track record, high risk") ∧
    (∃ x y, get_recommendation 860 = x ++ "Elite" ++ y) ∧
    (∃ x y, get_recommendation 750 = x ++ "Excellent" ++ y) ∧
    (∃ x y, get_recommendation 550 = x ++ "Good" ++ y) ∧
    (∃ x y, get_recommendation 420 = x ++ "Fair" ++ y) ∧
    (∃ x y, get_recommendation 100 = x ++ "Poor" ++ y) := by
  refine ⟨?_, ?_, ?_, ?_, ?_,
    ⟨"Highly recommended - ", " provider with excellent track record", rfl⟩,
    ⟨"Recommended - ", " provider, low risk", rfl⟩,
    ⟨"Acceptable - ", " provider, use with escrow protection", rfl⟩,
    ⟨"Caution - ", " provider, escrow strongly recommended", rfl⟩,
    ⟨"Not recommended - ", " track record, high risk", rfl⟩⟩ <;>
    · intro h
      try intro h'
      unfold get_recommendation
      split_ifs <;> first | rfl | omega

theorem C6_witness :
    get_recommendation 860 =
      "Highly recommended - Elite provider with excellent track record" ∧
    get_recommendation 750 = "Recommended - Excellent provider, low risk" ∧
    get_recommendation 550 = "Acceptable - Good provider, use with escrow protection" ∧
    get_recommendation 420 = "Caution - Fair provider, escrow strongly recommended" ∧
    get_recommendation 100 = "Not recommended - Poor track record, high risk" :=
  ⟨(C6_recommendation 860).1 (by decide),
   (C6_recommendation 750).2.1 (by decide) (by decide),
   (C6_recommendation 550).2.2.1 (by decide) (by decide),
   (C6_recommendation 420).2.2.2.1 (by decide) (by decide),
   (C6_recommendation 100).2.2.2.2.1 (by decide)⟩

theorem truthy_none : truthy PyVal.none = false := rfl

theorem truthy_num_zero : truthy (PyVal.num 0) = false := rfl

theorem truthy_str_empty : truthy (PyVal.str "") = false := rfl

theorem truthy_list_nil : truthy (PyVal.list []) = false := rfl

/-- C8: for each action and each of its required parameters, invoking
the entry point with that parameter missing (and the parameters the
handler checks first present) returns exactly the single-key dict
mapping "error" to "<param> is required", with no network call made. -/
theorem C8_missing_params (env : Env) (params : Params) :
    (getParam params "provider_address" = PyVal.none →
      check_provider_run env params =
        ⟨.dict [("error", .str "provider_address is required")], []⟩) ∧
    (getParam params "provider_addresses" = PyVal.none →
      compare_providers_run env params =
        ⟨.dict [("error", .str "provider_addresses is required")], []⟩) ∧
    (getParam params "provider_address" = PyVal.none →
      secure_payment_run env params =
        ⟨.dict [("error", .str "provider_address is required")], []⟩) ∧
    (truthy (getParam params "provider_address") = true →
     getParam params "amount_usdc" = PyVal.none →
      secure_payment_run env params =
        ⟨.dict [("error", .str "amount_usdc is required")], []⟩) ∧
    (truthy (getParam params "provider_address") = true →
     truthy (getParam params "amount_usdc") = true →
     getParam params "request_description" = PyVal.none →
      secure_payment_run env params =
        ⟨.dict [("error", .str "request_description is required")], []⟩) ∧
    (getParam params "payment_id" = PyVal.none →
      confirm_delivery_run env params =
        ⟨.dict [("error", .str "payment_id is required")], []⟩) ∧
    (truthy (getParam params "payment_id") = true →
     getParam params "response_data" = PyVal.none →
      confirm_delivery_run env params =
        ⟨.dict [("error", .str "response_data is required")], []⟩) ∧
    (getParam params "payment_id" = PyVal.none →
      raise_dispute_run env params =
        ⟨.dict [("error", .str "payment_id is required")], []⟩) ∧
    (truthy (getParam params "payment_id") = true →
     getParam params "reason" = PyVal.none →
      raise_dispute_run env params =
        ⟨.dict [("error", .str "reason is required")], []⟩) := by
  refine ⟨fun h => ?_, fun h => ?_, fun h => ?_, fun h1 h => ?_, fun h1 h2 h => ?_,
    fun h => ?_, fun h1 h => ?_, fun h => ?_, fun h1 h => ?_⟩ <;>
    simp [check_provider_run, compare_providers_run, secure_payment_run,
      confirm_delivery_run, raise_dispute_run, h, truthy_none, *]

theorem C8_witness :
    check_provider_run envBase [] =
      ⟨.dict [("error", .str "provider_address is required")], []⟩ ∧
    compare_providers_run envBase [] =
      ⟨.dict [("error", .str "provider_addresses is required")], []⟩ ∧
    secure_payment_run envBase [] =
      ⟨.dict [("error", .str "provider_address is required")], []⟩ ∧
    secure_payment_run envBase [("provider_address", .str "0xaa")] =
      ⟨.dict [("error", .str "amount_usdc is required")], []⟩ ∧
    secure_payment_run envBase
        [("provider_address", .str "0xaa"), ("amount_usdc", .num 5)] =
      ⟨.dict [("error", .str "request_description is required")], []⟩ ∧
    confirm_delivery_run envBase [] =
      ⟨.dict [("error", .str "payment_id is required")], []⟩ ∧
    confirm_delivery_run envBase [("payment_id", .str "0xab")] =
      ⟨.dict [("error", .str "response_data is required")], []⟩ ∧
    raise_dispute_run envBase [] =
      ⟨.dict [("error", .str "payment_id is required")], []⟩ ∧
    raise_dispute_run envBase [("payment_id", .str "0xab")] =
      ⟨.dict [("error", .str "reason is required")], []⟩ :=
  ⟨(C8_missing_params envBase []).1 rfl,
   (C8_missing_params envBase []).2.1 rfl,
   (C8_missing_params envBase []).2.2.1 rfl,
   (C8_missing_params envBase [("provider_address", .str "0xaa")]).2.2.2.1 rfl rfl,
   (C8_missing_params envBase
      [("provider_address", .str "0xaa"), ("amount_usdc", .num 5)]).2.2.2.2.1
      rfl (by decide) rfl,
   (C8_missing_params envBase []).2.2.2.2.2.1 rfl,
   (C8_missing_params envBase [("payment_id", .str "0xab")]).2.2.2.2.2.2.1 rfl rfl,
   (C8_missing_params envBase []).2.2.2.2.2.2.2.1 rfl,
   (C8_missing_params envBase [("payment_id", .str "0xab")]).2.2.2.2.2.2.2.2 rfl rfl⟩

/-- C10: a required parameter that is present but falsy short-circuits
exactly like a missing one: `amount_usdc = 0` yields the is-required
error (never the minimum-payment error), empty `response_data` or
`reason` strings yield the is-required error, and an empty
`provider_addresses` list yields the is-required error (not the
at-least-2 error); all without touching the network. -/
theorem C10_falsy_params (env : Env) (params : Params) :
    (truthy (getParam params "provider_address") = true →
     getParam params "amount_usdc" = PyVal.num 0 →
      secure_payment_run env params =
        ⟨.dict [("error", .str "amount_usdc is required")], []⟩) ∧
    (truthy (getParam params "payment_id") = true →
     getParam params "response_data" = PyVal.str "" →
      confirm_delivery_run env params =
        ⟨.dict [("error", .str "response_data is required")], []⟩) ∧
    (truthy (getParam params "payment_id") = true →
     getParam params "reason" = PyVal.str "" →
      raise_dispute_run env params =
        ⟨.dict [("error", .str "reason is required")], []⟩) ∧
    (getParam params "provider_addresses" = PyVal.list [] →
      compare_providers_run env params =
        ⟨.dict [("error", .str "provider_addresses is required")], []⟩) ∧
    ("amount_usdc is required" ≠ "Minimum payment is 1 USDC") ∧
    ("provider_addresses is required" ≠
      "At least 2 provider addresses required for comparison") := by
  refine ⟨fun h1 h => ?_, fun h1 h => ?_, fun h1 h => ?_, fun h => ?_,
    by decide, by decide⟩ <;>
    simp [secure_payment_run, confirm_delivery_run, raise_dispute_run,
      compare_providers_run, h, truthy_none, truthy_num_zero, truthy_str_empty,
      truthy_list_nil, *]

theorem C10_witness :
    secure_payment_run envBase
        [("provider_address", .str "0xaa"), ("amount_usdc", .num 0)] =
      ⟨.dict [("error", .str "amount_usdc is required")], []⟩ ∧
    confirm_delivery_run envBase
        [("payment_id", .str "0xab"), ("response_data", .str "")] =
      ⟨.dict [("error", .str "response_data is required")], []⟩ ∧
    raise_dispute_run envBase
        [("payment_id", .str "0xab"), ("reason", .str "")] =
      ⟨.dict [("error", .str "reason is required")], []⟩ ∧
    compare_providers_run envBase [("provider_addresses", .list [])] =
      ⟨.dict [("error", .str "provider_addresses is required")], []⟩ :=
  ⟨(C10_falsy_params envBase
      [("provider_address", .str "0xaa"), ("amount_usdc", .num 0)]).1 rfl rfl,
   (C10_falsy_params envBase
      [("payment_id", .str "0xab"), ("response_data", .str "")]).2.1 rfl rfl,
   (C10_falsy_params envBase
      [("payment_id", .str "0xab"), ("reason", .str "")]).2.2.1 rfl rfl,
   (C10_falsy_params envBase [("provider_addresses", .list [])]).2.2.2.1 rfl⟩

/-- The validation loop of `compare_providers` early-returns the error
dict of the first invalid address. -/
theorem validateAddrs_first_invalid (env : Env) (inv : PyVal) (rest : List PyVal) :
    ∀ pre : List PyVal, (∀ w ∈ pre, pyIsAddress env w = true) →
      pyIsAddress env inv = false →
      validateAddrs env (pre ++ inv :: rest) =
        .error [("error", .str ("Invalid address: " ++ pyStr inv))]
  | [], _, hinv => by simp [validateAddrs, hinv]
  | w :: pre, hpre, hinv => by
    have hw : pyIsAddress env w = true := hpre w (List.mem_cons_self w pre)
    have ih := validateAddrs_first_invalid env inv rest pre
      (fun v hv => hpre v (List.mem_cons_of_mem w hv)) hinv
    simp [validateAddrs, hw, ih, Except.map]

/-- C1 (amended): an address string failing format validation makes
`check_provider` and `compare_providers` return exactly
`error = "Invalid address: <input>"` before any network call, while
`secure_payment` (when the signing key is configured, which it reads
before validating) returns `error = "Invalid provider address:
<input>"`, also before any network call. -/
theorem C1_invalid_address (env : Env) (v : PyVal) (pre rest : List PyVal)
    (inv : PyVal) (a : ℚ) (rd : PyVal) :
    (pyIsAddress env v = false →
      check_provider env v =
        ⟨.dict [("error", .str ("Invalid address: " ++ pyStr v))], []⟩) ∧
    (2 ≤ (pre ++ inv :: rest).length → (pre ++ inv :: rest).length ≤ 10 →
     (∀ w ∈ pre, pyIsAddress env w = true) → pyIsAddress env inv = false →
      compare_providers env (.list (pre ++ inv :: rest)) =
        ⟨.dict [("error", .str ("Invalid address: " ++ pyStr inv))], []⟩) ∧
    (keyConfigured env = true → pyIsAddress env v = false →
      secure_payment env v a rd =
        ⟨.dict [("error", .str ("Invalid provider address: " ++ pyStr v))], []⟩) := by
  refine ⟨fun h => ?_, fun h2 h10 hpre hinv => ?_, fun hkey h => ?_⟩
  · simp [check_provider, h]
  · have hval := validateAddrs_first_invalid env inv rest pre hpre hinv
    have hne : (pre ++ inv :: rest) ≠ [] := by
      intro hc
      rw [hc] at h2
      simp at h2
    simp only [List.length_append, List.length_cons] at h2 h10
    have htr : truthy (PyVal.list (pre ++ inv :: rest)) = true := by
      simp [truthy, hne]
    have hlen2 : ¬ (pre ++ inv :: rest).length < 2 := by
      simp only [List.length_append, List.length_cons]
      omega
    have hlen10 : ¬ (pre ++ inv :: rest).length > 10 := by
      simp only [List.length_append, List.length_cons]
      omega
    simp [compare_providers, htr, pyLen, hlen2, hlen10, runTry,
      stepBind_apply, stepPure_apply, liftE, pyIter, hval]
    rw [if_neg (by omega), if_neg (by omega)]
  · simp [secure_payment, hkey, h]

theorem C1_counterexample :
    (secure_payment envBase (.str "zzz") 5 (.str "d")).result =
      .dict [("error", .str "Invalid provider address: zzz")] ∧
    "Invalid provider address: zzz" ≠ "Invalid address: zzz" :=
  ⟨rfl, by decide⟩

theorem C1_witness :
    check_provider envBase (.str "zzz") =
      ⟨.dict [("error", .str "Invalid address: zzz")], []⟩ ∧
    compare_providers envBase (.list [.str "0xaa", .str "zzz"]) =
      ⟨.dict [("error", .str "Invalid address: zzz")], []⟩ ∧
    secure_payment envBase (.str "zzz") 5 (.str "d") =
      ⟨.dict [("error", .str "Invalid provider address: zzz")], []⟩ :=
  ⟨(C1_invalid_address envBase (.str "zzz") [.str "0xaa"] [] (.str "zzz") 5 (.str "d")).1 rfl,
   (C1_invalid_address envBase (.str "zzz") [.str "0xaa"] [] (.str "zzz") 5 (.str "d")).2.1
      (by decide) (by decide) (by decide) rfl,
   (C1_invalid_address envBase (.str "zzz") [.str "0xaa"] [] (.str "zzz") 5 (.str "d")).2.2
      rfl rfl⟩

/-- `compare_providers` returns a dict whenever `len()` succeeds on its
argument. -/
theorem compare_providers_total (env : Env) (v : PyVal) (n : ℕ)
    (hn : pyLen v = .ok n) : ∃ d, (compare_providers env v).result = .dict d := by
  unfold compare_providers
  rcases htr : truthy v <;> simp only [htr, hn, Bool.not_false, Bool.not_true,
    if_true, if_false, ite_true, ite_false, Bool.false_eq_true]
  · exact ⟨_, rfl⟩
  · split_ifs <;> exact ⟨_, rfl⟩

/-- C2 (amended): the read-only entry points always return a dict
provided `len()` is applicable to `provider_addresses` (it is for the
documented list/string forms); the state-changing entry points return
a dict provided the signing key is configured, `float(amount_usdc)`
succeeds, and `request_description` is hashable (a string).  Outside
those provisos the handlers raise: a missing key raises from
`get_account`, a non-numeric `amount_usdc` raises from `float`, and a
non-string `request_description` raises from `hash_string`, all before
or outside the `try` blocks (see the counterexample). -/
theorem C2_run_totality (env : Env) (params : Params) :
    (∃ d, (check_provider_run env params).result = .dict d) ∧
    ((truthy (getParam params "provider_addresses") = false ∨
      (∃ n, pyLen (getParam params "provider_addresses") = .ok n) ∨
      (∃ s, getParam params "provider_addresses" = .str s)) →
      ∃ d, (compare_providers_run env params).result = .dict d) ∧
    (keyConfigured env = true →
      (∃ d, (confirm_delivery_run env params).result = .dict d) ∧
      (∃ d, (raise_dispute_run env params).result = .dict d)) ∧
    (keyConfigured env = true →
     (truthy (getParam params "amount_usdc") = false ∨
      ∃ q, pyFloat (getParam params "amount_usdc") = .ok q) →
     (truthy (getParam params "request_description") = false ∨
      ∃ h, keccakText env (getParam params "request_description") = .ok h) →
      ∃ d, (secure_payment_run env params).result = .dict d) := by
  refine ⟨?_, ?_, fun hkey => ⟨?_, ?_⟩, fun hkey ham hrd => ?_⟩
  · unfold check_provider_run check_provider
    rcases htr : truthy (getParam params "provider_address") <;> simp [htr]
    rcases haddr : pyIsAddress env (getParam params "provider_address") <;>
      simp [haddr]
  · rintro (h | ⟨n, hn⟩ | ⟨s, hs⟩)
    · unfold compare_providers_run
      simp [h]
    · unfold compare_providers_run
      rcases htr : truthy (getParam params "provider_addresses") <;> simp [htr]
      rcases hv : getParam params "provider_addresses" <;> rw [hv] at hn
      case str s => exact compare_providers_total env _ _ rfl
      all_goals exact compare_providers_total env _ n hn
    · unfold compare_providers_run
      rcases htr : truthy (getParam params "provider_addresses") <;> simp [htr]
      rw [hs]
      exact compare_providers_total env _ _ rfl
  · unfold confirm_delivery_run confirm_delivery
    rcases h1 : truthy (getParam params "payment_id") <;> simp [h1]
    rcases h2 : truthy (getParam params "response_data") <;> simp [h2, hkey]
  · unfold raise_dispute_run raise_dispute
    rcases h1 : truthy (getParam params "payment_id") <;> simp [h1]
    rcases h2 : truthy (getParam params "reason") <;> simp [h2, hkey]
  · unfold secure_payment_run
    rcases h1 : truthy (getParam params "provider_address") <;> simp [h1]
    rcases h2 : truthy (getParam params "amount_usdc") <;> simp [h2]
    · rcases ham with ham | ⟨q, hq⟩
      · rw [h2] at ham
        cases ham
      · rcases h3 : truthy (getParam params "request_description") <;> simp [h3]
        rw [hq]
        unfold secure_payment
        simp only [hkey, Bool.not_true, Bool.false_eq_true, if_false, ite_false]
        rcases haddr : pyIsAddress env (getParam params "provider_address") <;>
          simp [haddr]
        split_ifs
        · exact ⟨_, rfl⟩
        · rcases hrd with hrd | ⟨h, hk⟩
          · rw [h3] at hrd
            cases hrd
          · rw [hk]
            exact ⟨_, rfl⟩

theorem C2_counterexample :
    (secure_payment_run envBase
       [("provider_address", .str "0xa"), ("amount_usdc", .str "abc"),
        ("request_description", .str "x")]).result
      = .exn "could not convert string to float: 'abc'" ∧
    (confirm_delivery_run envNoKey
       [("payment_id", .str "0xab"), ("response_data", .str "r")]).result
      = .exn "EVM_PRIVATE_KEY not configured" :=
  ⟨rfl, rfl⟩

theorem C2_witness :
    (∃ d, (check_provider_run envBase
      [("provider_address", .str "0xaa")]).result = .dict d) ∧
    (∃ d, (compare_providers_run envBase
      [("provider_addresses", .str "0xaa,0xbb")]).result = .dict d) ∧
    (∃ d, (confirm_delivery_run envBase
      [("payment_id", .str "0xab"), ("response_data", .str "r")]).result = .dict d) ∧
    (∃ d, (secure_payment_run envBase
      [("provider_address", .str "0xaa"), ("amount_usdc", .num 5),
       ("request_description", .str "x")]).result = .dict d) :=
  ⟨(C2_run_totality envBase [("provider_address", .str "0xaa")]).1,
   (C2_run_totality envBase [("provider_addresses", .str "0xaa,0xbb")]).2.1
      (Or.inr (Or.inr ⟨"0xaa,0xbb", rfl⟩)),
   ((C2_run_totality envBase
      [("payment_id", .str "0xab"), ("response_data", .str "r")]).2.2.1 rfl).1,
   (C2_run_totality envBase
      [("provider_address", .str "0xaa"), ("amount_usdc", .num 5),
       ("request_description", .str "x")]).2.2.2 rfl
      (Or.inr ⟨5, rfl⟩) (Or.inr ⟨[1], rfl⟩)⟩

/-- C7: once the payment is fetched, a status other than Pending makes
both `confirm_delivery` and `raise_dispute` return an error naming the
current status, and (when the status is Pending) a buyer differing
case-insensitively from the caller's address makes both return the
only-buyer error; in all four cases the one `getPayment` read is the
entire network trace, so no transaction is built or submitted. -/
theorem C7_preconditions (env : Env) (pidV rdV reasonV : PyVal) (s : String)
    (bs : List ℕ) (p : PaymentRec)
    (hkey : keyConfigured env = true)
    (hrep : pyReplace0x pidV = .ok s)
    (hhex : pyFromHex s = .ok bs)
    (hget : env.getPayment bs = .ok p) :
    (p.status ≠ 1 →
      confirm_delivery env pidV rdV =
        ⟨.dict [("error",
            .str ("Payment not pending. Status: " ++ statusName p.status))],
         [.read "getPayment"]⟩ ∧
      raise_dispute env pidV reasonV =
        ⟨.dict [("error",
            .str ("Cannot dispute. Payment status: " ++ statusName p.status))],
         [.read "getPayment"]⟩) ∧
    (p.status = 1 → lowerStr p.buyer ≠ lowerStr env.accountAddress →
      confirm_delivery env pidV rdV =
        ⟨.dict [("error", .str "Only buyer can confirm delivery")],
         [.read "getPayment"]⟩ ∧
      raise_dispute env pidV reasonV =
        ⟨.dict [("error", .str "Only buyer can raise dispute")],
         [.read "getPayment"]⟩) := by
  refine ⟨fun hs => ⟨?_, ?_⟩, fun hs hbuy => ⟨?_, ?_⟩⟩
  · unfold confirm_delivery
    simp [hkey, runTry, stepBind_apply, stepPure_apply, liftE, netRead,
      hrep, hhex, hget, hs]
  · unfold raise_dispute
    simp [hkey, runTry, stepBind_apply, stepPure_apply, liftE, netRead,
      hrep, hhex, hget, hs]
  · unfold confirm_delivery
    simp [hkey, runTry, stepBind_apply, stepPure_apply, liftE, netRead,
      hrep, hhex, hget, hs, hbuy]
  · unfold raise_dispute
    simp [hkey, runTry, stepBind_apply, stepPure_apply, liftE, netRead,
      hrep, hhex, hget, hs, hbuy]

theorem C7_witness :
    confirm_delivery envWrongBuyer (.str "0xab") (.str "resp") =
      ⟨.dict [("error", .str "Only buyer can confirm delivery")],
       [.read "getPayment"]⟩ ∧
    raise_dispute envWrongBuyer (.str "0xab") (.str "why") =
      ⟨.dict [("error", .str "Only buyer can raise dispute")],
       [.read "getPayment"]⟩ :=
  (C7_preconditions envWrongBuyer (.str "0xab") (.str "resp") (.str "why")
      "ab" [171] ⟨"0xother", "0xprov", 50000000, [1], 0, 900, 0, 1, true⟩
      rfl rfl rfl rfl).2 rfl (by decide)

/-- When no log carries the `PaymentCreated` topic signature, the log
scan leaves the running state untouched. -/
theorem parsePaymentLogs_no_match (sig : List ℕ) :
    ∀ (logs : List LogEntry) (st : Option String × Bool × ℕ),
      (∀ l ∈ logs, ∀ t0 ts, l.topics = t0 :: ts → bytesHex t0 ≠ bytesHex sig) →
      parsePaymentLogs sig logs st = .ok st
  | [], st, _ => rfl
  | l :: ls, (pid, eu, tmo), h => by
    have hl := h l (List.mem_cons_self l ls)
    have ih := parsePaymentLogs_no_match sig ls (pid, eu, tmo)
      (fun l' hl' => h l' (List.mem_cons_of_mem l hl'))
    unfold parsePaymentLogs
    rcases ht : l.topics with _ | ⟨t0, ts⟩
    · exact ih
    · simp only [if_neg (hl t0 ts ht)]
      exact ih

/-- C9: when a `createPayment` receipt contains no log entry with the
`PaymentCreated` topic signature, `secure_payment` still succeeds,
reporting the transaction hash as `payment_id`, `escrow_used = true`
and `timeout_minutes = 15` (the 900-second default). -/
theorem C9_no_log_fallback (env : Env) (pv rd : PyVal) (a : ℚ) (rh : List ℕ)
    (B A c : ℕ) (R : Receipt)
    (hkey : keyConfigured env = true)
    (haddr : pyIsAddress env pv = true)
    (hamt : ¬ a < 1)
    (hkec : keccakText env rd = .ok rh)
    (hbal : env.balanceOf env.accountAddress = .ok B)
    (hBe : ¬ B < (pyInt (qMul a 1000000)).toNat)
    (hall : env.allowance env.accountAddress (env.toChecksum env.escrowVault) = .ok A)
    (hAe : ¬ A < (pyInt (qMul a 1000000)).toNat)
    (hcid : env.chainId = .ok c)
    (hsend : env.sendTx (.createPayment (env.toChecksum (pyAddrStr pv))
              (pyInt (qMul a 1000000)).toNat rh env.accountAddress c) = .ok R)
    (hnolog : ∀ l ∈ R.logs, ∀ t0 ts, l.topics = t0 :: ts →
              bytesHex t0 ≠ bytesHex (env.keccak paymentCreatedSig)) :
    secure_payment env pv a rd =
      ⟨.dict [("payment_id", .str (bytesHex R.transactionHash)),
              ("escrow_used", .bool true),
              ("timeout_minutes", .num 15),
              ("transaction_hash", .str (bytesHex R.transactionHash)),
              ("amount_usdc", .num a),
              ("provider", .str (env.toChecksum (pyAddrStr pv)))],
       [.read "balanceOf", .read "allowance", .read "chain_id",
        .submit (.createPayment (env.toChecksum (pyAddrStr pv))
          (pyInt (qMul a 1000000)).toNat rh env.accountAddress c)]⟩ := by
  have hparse := parsePaymentLogs_no_match (env.keccak paymentCreatedSig)
    R.logs (Option.none, true, 900) hnolog
  simp only [Int.lt_toNat] at hBe hAe
  unfold secure_payment
  simp [hkey, haddr, hamt, hkec, hbal, hBe, hall, hAe, hcid, hsend, hparse,
    runTry, stepBind_apply, stepPure_apply, liftE, netRead, netSubmit]

theorem C9_witness :
    secure_payment envOtherLog (.str "0xaa") 5 (.str "d") =
      ⟨.dict [("payment_id", .str "0xabcd"),
              ("escrow_used", .bool true),
              ("timeout_minutes", .num 15),
              ("transaction_hash", .str "0xabcd"),
              ("amount_usdc", .num 5),
              ("provider", .str "0xaa")],
       [.read "balanceOf", .read "allowance", .read "chain_id",
        .submit (.createPayment "0xaa" 5000000 [1] "0xme" 5042002)]⟩ :=
  C9_no_log_fallback envOtherLog (.str "0xaa") (.str "d") 5 [1]
    1000000000000 1000000000000 5042002 ⟨[⟨[[7], [9]], [1, 2, 3]⟩], [171, 205]⟩
    rfl rfl (by decide) rfl rfl (by decide) rfl (by decide) rfl rfl
    (by
      intro l hl t0 ts ht
      simp only [List.mem_singleton] at hl
      subst hl
      injection ht with h1 h2
      subst h1
      decide)

/-- C3 (amended): the amount submitted on-chain by `secure_payment` is
`int(amount_usdc * 1e6)` — truncation toward zero, not `round` (see
the counterexample); `confirm_delivery` and `raise_dispute` report the
stored on-chain amount divided by 1_000_000 exactly; and the truncated
round-trip reproduces the original amount to within 1e-6 (exactly when
the amount is a whole multiple of 1e-6). -/
theorem C3_conversion :
    (∀ (env : Env) (pv rd : PyVal) (a : ℚ) (rh : List ℕ) (B A c : ℕ) (R : Receipt),
      keyConfigured env = true → pyIsAddress env pv = true → ¬ a < 1 →
      keccakText env rd = .ok rh →
      env.balanceOf env.accountAddress = .ok B →
      ¬ B < (pyInt (a * 1000000)).toNat →
      env.allowance env.accountAddress (env.toChecksum env.escrowVault) = .ok A →
      ¬ A < (pyInt (a * 1000000)).toNat →
      env.chainId = .ok c →
      env.sendTx (.createPayment (env.toChecksum (pyAddrStr pv))
        (pyInt (a * 1000000)).toNat rh env.accountAddress c) = .ok R →
      (secure_payment env pv a rd).trace =
        [.read "balanceOf", .read "allowance", .read "chain_id",
         .submit (.createPayment (env.toChecksum (pyAddrStr pv))
           (pyInt (a * 1000000)).toNat rh env.accountAddress c)]) ∧
    (∀ (env : Env) (pidV rdV : PyVal) (s : String) (bs : List ℕ) (p : PaymentRec)
        (rh : List ℕ) (n c : ℕ) (R : Receipt) (info : ℕ × ℕ × ℕ × Bool),
      keyConfigured env = true → pyReplace0x pidV = .ok s → pyFromHex s = .ok bs →
      env.getPayment bs = .ok p → p.status = 1 →
      lowerStr p.buyer = lowerStr env.accountAddress →
      keccakText env rdV = .ok rh → pyLen rdV = .ok n → env.chainId = .ok c →
      (∀ t, env.sendTx t = .ok R) →
      env.getProviderInfo p.provider = .ok info →
      resultGet (confirm_delivery env pidV rdV) "amount_released" =
        some (.num ((p.amount : ℚ) / 1000000))) ∧
    (∀ (env : Env) (pidV reasonV : PyVal) (s : String) (bs : List ℕ)
        (p : PaymentRec) (rh : List ℕ) (c : ℕ) (R : Receipt),
      keyConfigured env = true → pyReplace0x pidV = .ok s → pyFromHex s = .ok bs →
      env.getPayment bs = .ok p → p.status = 1 →
      lowerStr p.buyer = lowerStr env.accountAddress →
      keccakText env reasonV = .ok rh → env.chainId = .ok c →
      (∀ t, env.sendTx t = .ok R) →
      resultGet (raise_dispute env pidV reasonV) "amount_disputed" =
        some (.num ((p.amount : ℚ) / 1000000))) ∧
    (∀ a : ℚ, 1 ≤ a →
      |a - ((pyInt (a * 1000000) : ℤ) : ℚ) / 1000000| < 1 / 1000000) := by
  refine ⟨?_, ?_, ?_, ?_⟩
  · intro env pv rd a rh B A c R hkey haddr hamt hkec hbal hBe hall hAe hcid hsend
    rw [show a * 1000000 = qMul a 1000000 from (qMul_eq a 1000000).symm]
      at hBe hAe hsend ⊢
    simp only [Int.lt_toNat] at hBe hAe
    unfold secure_payment
    rcases hp : parsePaymentLogs (env.keccak paymentCreatedSig) R.logs
        (Option.none, true, 900) with e | st <;>
      simp [hkey, haddr, hamt, hkec, hbal, hBe, hall, hAe, hcid, hsend, hp,
        runTry, stepBind_apply, stepPure_apply, liftE, netRead, netSubmit]
  · intro env pidV rdV s bs p rh n c R info hkey hrep hhex hget hstat hbuy
      hkec hlen hcid hsend hinfo
    unfold confirm_delivery
    simp [hkey, hrep, hhex, hget, hstat, hbuy, hkec, hlen, hcid, hsend, hinfo,
      resultGet, qDiv_eq, runTry, stepBind_apply, stepPure_apply, liftE,
      netRead, netSubmit]
  · intro env pidV reasonV s bs p rh c R hkey hrep hhex hget hstat hbuy
      hkec hcid hsend
    unfold raise_dispute
    simp [hkey, hrep, hhex, hget, hstat, hbuy, hkec, hcid, hsend,
      DISPUTE_TRACKS_total, resultGet, qDiv_eq, runTry, stepBind_apply,
      stepPure_apply, liftE, netRead, netSubmit]
  · intro a ha
    have h0 : (0 : ℚ) ≤ a * 1000000 := by nlinarith
    have hp : pyInt (a * 1000000) = ⌊a * 1000000⌋ := by
      unfold pyInt
      rw [if_pos h0]
    rw [hp]
    have h1 : ((⌊a * 1000000⌋ : ℤ) : ℚ) ≤ a * 1000000 := Int.floor_le _
    have h2 : a * 1000000 - 1 < ((⌊a * 1000000⌋ : ℤ) : ℚ) := Int.sub_one_lt_floor _
    have he : a - ((⌊a * 1000000⌋ : ℤ) : ℚ) / 1000000 =
        (a * 1000000 - ((⌊a * 1000000⌋ : ℤ) : ℚ)) / 1000000 := by ring
    rw [he, abs_of_nonneg (div_nonneg (by linarith) (by norm_num)),
      div_lt_div_iff_of_pos_right (by norm_num)]
    linarith

theorem C3_counterexample :
    qDiv 10000006 10000000 = (10000006 : ℚ) / 10000000 ∧
    qMul (qDiv 10000006 10000000) 1000000 =
      (10000006 : ℚ) / 10000000 * 1000000 ∧
    (secure_payment envBase (.str "0xabc") (qDiv 10000006 10000000) (.str "d")).trace
      = [.read "balanceOf", .read "allowance", .read "chain_id",
         .submit (.createPayment "0xabc" 1000000 [1] "0xme" 5042002)] ∧
    pyRound (qMul (qDiv 10000006 10000000) 1000000) = 1000001 ∧
    (1000000 : ℕ) ≠ 1000001 :=
  ⟨qDiv_eq 10000006 10000000,
   by rw [qMul_eq, qDiv_eq],
   rfl, rfl, by decide⟩

theorem C3_witness :
    (secure_payment envBase (.str "0xaa") 5 (.str "d")).trace =
      [.read "balanceOf", .read "allowance", .read "chain_id",
       .submit (.createPayment "0xaa" (pyInt ((5 : ℚ) * 1000000)).toNat [1]
         "0xme" 5042002)] ∧
    resultGet (confirm_delivery envBase (.str "0xab") (.str "resp"))
        "amount_released" = some (.num (((50000000 : ℕ) : ℚ) / 1000000)) ∧
    resultGet (raise_dispute envBase (.str "0xab") (.str "bad"))
        "amount_disputed" = some (.num (((50000000 : ℕ) : ℚ) / 1000000)) ∧
    |(3 : ℚ) - ((pyInt ((3 : ℚ) * 1000000) : ℤ) : ℚ) / 1000000| < 1 / 1000000 :=
  ⟨C3_conversion.1 envBase (.str "0xaa") (.str "d") 5 [1] 1000000000000
      1000000000000 5042002 ⟨[], [171, 205]⟩ rfl rfl (by norm_num)
      rfl rfl (by rw [← qMul_eq]; decide) rfl (by rw [← qMul_eq]; decide)
      rfl (by rw [← qMul_eq]; exact rfl),
   C3_conversion.2.1 envBase (.str "0xab") (.str "resp") "ab" [171]
      ⟨"0xme", "0xprov", 50000000, [1], 0, 900, 0, 1, true⟩ [4] 4 5042002
      ⟨[], [171, 205]⟩ (800, 5, 600, true) rfl rfl rfl rfl rfl rfl rfl rfl rfl
      (fun _ => rfl) rfl,
   C3_conversion.2.2.1 envBase (.str "0xab") (.str "bad") "ab" [171]
      ⟨"0xme", "0xprov", 50000000, [1], 0, 900, 0, 1, true⟩ [3] 5042002
      ⟨[], [171, 205]⟩ rfl rfl rfl rfl rfl rfl rfl rfl (fun _ => rfl),
   C3_conversion.2.2.2 3 (by norm_num)⟩

/-- The running maximum of the best-provider fold never decreases. -/
theorem foldMax_le (l : List Rec) : ∀ b : ℕ,
    b ≤ List.foldl (fun m r => max m r.score) b l := by
  induction l with
  | nil => intro b; exact Nat.le_refl b
  | cons r t ih =>
    intro b
    exact Nat.le_trans (Nat.le_max_left b r.score) (ih (max b r.score))

/-- Every member's score is bounded by the fold of the maxima. -/
theorem foldMax_bound (l : List Rec) : ∀ (b : ℕ) (x : Rec), x ∈ l →
    x.score ≤ List.foldl (fun m r => max m r.score) b l := by
  induction l with
  | nil => intro b x hx; cases hx
  | cons r t ih =>
    intro b x hx
    rcases List.mem_cons.1 hx with rfl | hx
    · exact Nat.le_trans (Nat.le_max_right b x.score) (foldMax_le t (max b x.score))
    · exact ih (max b r.score) x hx

/-- The first component of the best-provider fold is the running
maximum. -/
theorem foldBest_fst (l : List Rec) : ∀ (b : ℕ) (oa : Option String),
    (List.foldl (fun p r => if p.1 < r.score then (r.score, some r.address) else p)
      (b, oa) l).1 = List.foldl (fun m r => max m r.score) b l := by
  induction l with
  | nil => intro b oa; rfl
  | cons r t ih =>
    intro b oa
    by_cases h : b < r.score
    · simp only [List.foldl_cons, if_pos h, Nat.max_eq_right (Nat.le_of_lt h)]
      exact ih r.score (some r.address)
    · simp only [List.foldl_cons, if_neg h,
        Nat.max_eq_left (Nat.le_of_not_lt h)]
      exact ih b oa

/-- `find?` on a cons whose head satisfies the predicate. -/
theorem find?_cons_pos {p : Rec → Bool} {r : Rec} {t : List Rec} (h : p r = true) :
    List.find? p (r :: t) = some r := by
  simp [List.find?_cons, h]

/-- `find?` on a cons whose head fails the predicate. -/
theorem find?_cons_neg {p : Rec → Bool} {r : Rec} {t : List Rec} (h : p r = false) :
    List.find? p (r :: t) = List.find? p t := by
  simp [List.find?_cons, h]

/-- If no element exceeds the running best, the fold keeps the running
address. -/
theorem foldBest_snd_stall (l : List Rec) : ∀ (b : ℕ) (oa : Option String),
    List.foldl (fun m r => max m r.score) b l = b →
    (List.foldl (fun p r => if p.1 < r.score then (r.score, some r.address) else p)
      (b, oa) l).2 = oa := by
  induction l with
  | nil => intro b oa _; rfl
  | cons r t ih =>
    intro b oa h
    simp only [List.foldl_cons] at h
    have hsc : max b r.score ≤ b := by
      calc max b r.score ≤ List.foldl (fun m r => max m r.score) (max b r.score) t :=
            foldMax_le t (max b r.score)
        _ = b := h
    have hrb : ¬ b < r.score := by
      have := Nat.le_trans (Nat.le_max_right b r.score) hsc
      omega
    have hmax : max b r.score = b := Nat.max_eq_left (by omega)
    rw [hmax] at h
    simp only [List.foldl_cons, if_neg hrb]
    exact ih b oa h

/-- When some element exceeds the initial best, the best-provider fold
lands on the first element attaining the overall maximum. -/
theorem foldBest_snd (l : List Rec) : ∀ (b : ℕ) (oa : Option String),
    b < List.foldl (fun m r => max m r.score) b l →
    (List.foldl (fun p r => if p.1 < r.score then (r.score, some r.address) else p)
        (b, oa) l).2 =
      (l.find? (fun r =>
        r.score == List.foldl (fun m r => max m r.score) b l)).map
        (fun r => r.address) := by
  induction l with
  | nil =>
    intro b oa h
    simp only [List.foldl_nil] at h
    omega
  | cons r t ih =>
    intro b oa h
    simp only [List.foldl_cons] at h ⊢
    by_cases hb : b < r.score
    · have hmax : max b r.score = r.score := Nat.max_eq_right (Nat.le_of_lt hb)
      rw [hmax] at h ⊢
      by_cases hlt : r.score < List.foldl (fun m r => max m r.score) r.score t
      · have hne : (r.score ==
            List.foldl (fun m r => max m r.score) r.score t) = false :=
          beq_eq_false_iff_ne.mpr (by omega)
        rw [find?_cons_neg hne, if_pos hb]
        exact ih r.score (some r.address) hlt
      · have heq : List.foldl (fun m r => max m r.score) r.score t = r.score := by
          have := foldMax_le t r.score
          omega
        have hyes : (r.score ==
            List.foldl (fun m r => max m r.score) r.score t) = true :=
          beq_iff_eq.mpr heq.symm
        rw [find?_cons_pos hyes, if_pos hb]
        exact foldBest_snd_stall t r.score (some r.address) heq
    · have hmax : max b r.score = b := Nat.max_eq_left (Nat.le_of_not_lt hb)
      rw [hmax] at h ⊢
      have hne : (r.score == List.foldl (fun m r => max m r.score) b t) = false :=
        beq_eq_false_iff_ne.mpr (by
          have := Nat.le_of_not_lt hb
          omega)
      rw [find?_cons_neg hne, if_neg hb]
      exact ih b oa h

/-- With a positive maximum, the source's best-provider fold computes
exactly the maximum score and the first address attaining it. -/
theorem foldBest_eq (recs : List Rec) (h : 0 < maxScore recs) :
    foldBest recs = (maxScore recs, specFirstMaxAddr recs) := by
  unfold foldBest maxScore specFirstMaxAddr at *
  refine Prod.ext ?_ ?_
  · exact foldBest_fst recs 0 Option.none
  · exact foldBest_snd recs 0 Option.none h

/-- Inserting into the stable descending sort preserves the sublist of
any fixed score: the new element lands after every earlier element of
equal score. -/
theorem orderedInsert_filter_score (a : Rec) (s : ℕ) : ∀ l : List Rec,
    (List.orderedInsert recGE a l).filter (fun r => r.score == s) =
      if a.score == s then a :: l.filter (fun r => r.score == s)
      else l.filter (fun r => r.score == s)
  | [] => by
    simp only [List.orderedInsert, List.filter]
    rcases h : (a.score == s) <;> simp [h]
  | b :: l => by
    by_cases hr : recGE a b
    · rw [List.orderedInsert_of_le recGE l hr]
      rcases h : (a.score == s) <;> simp [List.filter, h]
    · have hab : a.score < b.score := by
        unfold recGE at hr
        omega
      simp only [List.orderedInsert, if_neg hr]
      rcases h : (a.score == s)
      · simp only [List.filter, orderedInsert_filter_score a s l, h, if_neg]
        rcases hbs : (b.score == s) <;> simp [hbs]
      · have has : a.score = s := by
          have := beq_iff_eq.mp h
          omega
        have hbs : (b.score == s) = false := by
          refine beq_eq_false_iff_ne.mpr ?_
          omega
        simp only [List.filter, hbs, orderedInsert_filter_score a s l, h, if_pos]

/-- The stable descending sort of the source preserves the relative
order of records of any fixed score. -/
theorem insertionSort_filter_score (s : ℕ) : ∀ recs : List Rec,
    (List.insertionSort recGE recs).filter (fun r => r.score == s) =
      recs.filter (fun r => r.score == s)
  | [] => rfl
  | a :: l => by
    simp only [List.insertionSort, orderedInsert_filter_score,
      insertionSort_filter_score s l, List.filter]
    rcases h : (a.score == s) <;> simp [h]

/-- Sort-key transport: the score stored in the dict form of a record
is its score. -/
theorem dictScore_recToDict (r : Rec) : dictScore (recToDict r) = (r.score : ℚ) := rfl

/-- The sorted comparison list is pairwise descending also after
conversion to result dicts. -/
theorem pairwise_dictScore (recs : List Rec) :
    List.Pairwise (fun x y => dictScore y ≤ dictScore x)
      ((List.insertionSort recGE recs).map recToDict) := by
  have hs : List.Pairwise recGE (List.insertionSort recGE recs) :=
    List.sorted_insertionSort recGE recs
  refine List.Pairwise.map recToDict ?_ hs
  intro a b hab
  rw [dictScore_recToDict, dictScore_recToDict]
  exact_mod_cast hab

/-- Decomposition of a successful `find?`: the list splits at the first
element satisfying the predicate. -/
theorem find?_decomp {p : Rec → Bool} : ∀ {l : List Rec} {r : Rec},
    l.find? p = some r →
    ∃ pre post, l = pre ++ r :: post ∧ p r = true ∧ ∀ x ∈ pre, p x = false
  | [], r, h => by simp [List.find?] at h
  | x :: t, r, h => by
    rcases hx : p x
    · rw [find?_cons_neg hx] at h
      obtain ⟨pre, post, hsplit, hr, hpre⟩ := find?_decomp h
      exact ⟨x :: pre, post, by rw [hsplit]; rfl, hr, by
        intro y hy
        rcases List.mem_cons.1 hy with rfl | hy
        · exact hx
        · exact hpre y hy⟩
    · rw [find?_cons_pos hx] at h
      cases h
      exact ⟨[], t, rfl, hx, by intro y hy; cases hy⟩

/-- C4 (amended): on a valid list of 2-10 addresses whose scores are
fetched successfully, provided the maximum fetched score is positive,
`compare_providers` returns the comparison list sorted by score
descending with ties kept in original relative order, and `recommended`
is the address of the first provider attaining the maximum score.
When every fetched score is zero the strict-compare fold leaves the
best provider unset and the action returns an error dict instead (see
the counterexample). -/
theorem C4_compare_sorted (env : Env) (items : List PyVal)
    (validated : List String) (scores timeouts : List ℕ) (recs : List Rec)
    (bp : String)
    (h2 : 2 ≤ items.length) (h10 : items.length ≤ 10)
    (hval : validateAddrs env items = .ok validated)
    (hcmp : env.compareProviders validated = .ok (scores, timeouts))
    (hbuild : buildRecs env validated scores timeouts 0 = .ok recs)
    (hpos : 0 < maxScore recs)
    (hbp : specFirstMaxAddr recs = some bp) :
    compare_providers env (.list items) =
      ⟨.dict [("comparison",
                .list ((List.insertionSort recGE recs).map recToDict)),
              ("recommended", .str bp),
              ("reasoning", .str (mkReasoning (maxScore recs) bp)),
              ("total_providers", .num (List.insertionSort recGE recs).length)],
       [.read "compareProviders"]⟩ ∧
    List.Pairwise (fun x y => dictScore y ≤ dictScore x)
      ((List.insertionSort recGE recs).map recToDict) ∧
    (∀ s : ℕ, (List.insertionSort recGE recs).filter (fun r => r.score == s) =
      recs.filter (fun r => r.score == s)) ∧
    (∀ r ∈ recs, r.score ≤ maxScore recs) ∧
    (∃ pre post r, recs = pre ++ r :: post ∧ r.score = maxScore recs ∧
      r.address = bp ∧ ∀ x ∈ pre, x.score ≠ maxScore recs) := by
  have hfold := foldBest_eq recs hpos
  refine ⟨?_, pairwise_dictScore recs,
    fun s => insertionSort_filter_score s recs,
    fun r hr => foldMax_bound recs 0 r hr, ?_⟩
  · have hne : items ≠ [] := by
      intro hc
      rw [hc] at h2
      simp at h2
    have htr : truthy (PyVal.list items) = true := by
      simp [truthy, hne]
    have hlen2 : ¬ items.length < 2 := by omega
    have hlen10 : ¬ items.length > 10 := by omega
    unfold compare_providers
    simp [htr, pyLen, hlen2, hlen10, runTry, stepBind_apply, stepPure_apply,
      liftE, pyIter, hval, hcmp, hbuild, hfold, hbp, netRead]
  · obtain ⟨r, hfind⟩ : ∃ r, recs.find? (fun r => r.score == maxScore recs) = some r := by
      unfold specFirstMaxAddr at hbp
      rcases hf : recs.find? (fun r => r.score == maxScore recs) with _ | r
      · rw [hf] at hbp
        simp at hbp
      · exact ⟨r, hf⟩
    obtain ⟨pre, post, hsplit, hs, hpre⟩ := find?_decomp hfind
    have hbp' : r.address = bp := by
      unfold specFirstMaxAddr at hbp
      rw [hfind] at hbp
      simpa using hbp
    exact ⟨pre, post, r, hsplit, beq_iff_eq.mp hs, hbp',
      fun x hx => by
        have := hpre x hx
        exact beq_eq_false_iff_ne.mp this⟩

theorem C4_counterexample :
    (compare_providers envZeroScores (.list [.str "0xaa", .str "0xbb"])).result =
      .dict [("error", .str "'NoneType' object is not subscriptable")] ∧
    buildRecs envZeroScores ["0xaa", "0xbb"] [0, 0] [60, 60] 0 =
      .ok [⟨"0xaa", 0, "None", 1, true,
            "Not recommended - Poor track record, high risk"⟩,
           ⟨"0xbb", 0, "None", 1, true,
            "Not recommended - Poor track record, high risk"⟩] ∧
    specFirstMaxAddr
        [⟨"0xaa", 0, "None", 1, true,
          "Not recommended - Poor track record, high risk"⟩,
         ⟨"0xbb", 0, "None", 1, true,
          "Not recommended - Poor track record, high risk"⟩] = some "0xaa" :=
  ⟨rfl, rfl, rfl⟩

theorem C4_witness :
    compare_providers envBase (.list [.str "0xaa", .str "0xbb"]) =
      ⟨.dict [("comparison",
                .list ((List.insertionSort recGE
                  [⟨"0xaa", 5, "Excellent", 1, false,
                    "Not recommended - Poor track record, high risk"⟩,
                   ⟨"0xbb", 3, "Excellent", 2, false,
                    "Not recommended - Poor track record, high risk"⟩]).map recToDict)),
              ("recommended", .str "0xaa"),
              ("reasoning", .str (mkReasoning (maxScore
                  [⟨"0xaa", 5, "Excellent", 1, false,
                    "Not recommended - Poor track record, high risk"⟩,
                   ⟨"0xbb", 3, "Excellent", 2, false,
                    "Not recommended - Poor track record, high risk"⟩]) "0xaa")),
              ("total_providers", .num (List.insertionSort recGE
                  [⟨"0xaa", 5, "Excellent", 1, false,
                    "Not recommended - Poor track record, high risk"⟩,
                   ⟨"0xbb", 3, "Excellent", 2, false,
                    "Not recommended - Poor track record, high risk"⟩]).length)],
       [.read "compareProviders"]⟩ ∧
    (∀ r ∈ [(⟨"0xaa", 5, "Excellent", 1, false,
              "Not recommended - Poor track record, high risk"⟩ : Rec),
            ⟨"0xbb", 3, "Excellent", 2, false,
              "Not recommended - Poor track record, high risk"⟩],
        r.score ≤ maxScore
          [⟨"0xaa", 5, "Excellent", 1, false,
            "Not recommended - Poor track record, high risk"⟩,
           ⟨"0xbb", 3, "Excellent", 2, false,
            "Not recommended - Poor track record, high risk"⟩]) :=
  ⟨(C4_compare_sorted envBase [.str "0xaa", .str "0xbb"] ["0xaa", "0xbb"]
      [5, 3] [60, 120]
      [⟨"0xaa", 5, "Excellent", 1, false,
        "Not recommended - Poor track record, high risk"⟩,
       ⟨"0xbb", 3, "Excellent", 2, false,
        "Not recommended - Poor track record, high risk"⟩] "0xaa"
      (by decide) (by decide) rfl rfl rfl (by decide) rfl).1,
   (C4_compare_sorted envBase [.str "0xaa", .str "0xbb"] ["0xaa", "0xbb"]
      [5, 3] [60, 120]
      [⟨"0xaa", 5, "Excellent", 1, false,
        "Not recommended - Poor track record, high risk"⟩,
       ⟨"0xbb", 3, "Excellent", 2, false,
        "Not recommended - Poor track record, high risk"⟩] "0xaa"
      (by decide) (by decide) rfl rfl rfl (by decide) rfl).2.2.2.1⟩
